import Mathlib

/-!
Verification of the journaling-assistant persistence and summarization core
(`src/journaling_assistant/database.py`, `src/journaling_assistant/summarizer.py`)
against its natural-language specification.

The SQLite-backed store is embedded shallowly: the two tables become lists of
rows, each Python method on `JournalingDatabase` becomes a state-passing
function.  Two points of SQLite semantics matter and are modelled exactly:

* `CHECK (role IN ('user', 'assistant'))` and `PRIMARY KEY` constraints are
  enforced by SQLite by default, so a violating `INSERT` raises
  `IntegrityError` and writes nothing.
* `FOREIGN KEY ... ON DELETE CASCADE` is declared in the schema, but SQLite
  only enforces foreign keys when a connection executes
  `PRAGMA foreign_keys = ON`.  `JournalingDatabase.get_connection` never does,
  so in the running program the foreign key is inert: inserting a message for
  a nonexistent conversation succeeds, and deleting a conversation leaves its
  messages behind.  The embedding reflects the code as it runs.

Timestamps (`datetime.now()`) are passed in explicitly as naturals; fresh
UUIDs are passed in explicitly as strings.
-/

namespace Journaling

/-- The `Message` dataclass / a row of the `messages` table. -/
structure Message where
  id : String
  conversation_id : String
  role : String
  content : String
  timestamp : Nat
  metadata : Option String
  deriving DecidableEq, Repr

/-- The `Conversation` dataclass / a row of the `conversations` table
(current schema, with the `summary_generated` column). -/
structure Conversation where
  id : String
  title : String
  user_name : Option String
  current_mood : Option String
  goals : List String
  created_at : Nat
  updated_at : Nat
  message_count : Nat
  summary_generated : Bool
  deriving DecidableEq, Repr

/-- The persistent state: the two tables of the SQLite file, rows in
insertion (rowid) order. -/
structure DBState where
  conversations : List Conversation
  messages : List Message
  deriving DecidableEq, Repr

/-- SQLite raises `sqlite3.IntegrityError` on a violated `CHECK` or
`PRIMARY KEY` constraint. -/
inductive DBErr where
  | integrityError
  deriving DecidableEq, Repr

/-- The `Conversation` dataclass value built inside `create_conversation`:
`created_at = updated_at = now`, and `message_count = 0`,
`summary_generated = False` from the dataclass defaults. -/
def newConversationRow (conversation_id title : String)
    (user_name current_mood : Option String) (goals : List String)
    (now : Nat) : Conversation :=
  { id := conversation_id, title := title, user_name := user_name,
    current_mood := current_mood, goals := goals, created_at := now,
    updated_at := now, message_count := 0, summary_generated := false }

/-- `JournalingDatabase.create_conversation`: builds the `Conversation`
dataclass and INSERTs it.  `goals is None` defaults to `[]`.  The `id TEXT
PRIMARY KEY` constraint rejects a duplicate id. -/
def create_conversation (s : DBState) (conversation_id : String) (title : String)
    (user_name current_mood : Option String) (goals : Option (List String))
    (now : Nat) : DBState × Except DBErr Conversation :=
  let goals := goals.getD []
  let conversation : Conversation :=
    newConversationRow conversation_id title user_name current_mood goals now
  if s.conversations.any (fun c => c.id == conversation_id) then
    (s, Except.error DBErr.integrityError)
  else
    ({ s with conversations := s.conversations ++ [conversation] },
     Except.ok conversation)

/-- The `Message` dataclass value built inside `add_message`. -/
def newMessageRow (conversation_id role content : String)
    (metadata : Option String) (message_id : String) (now : Nat) : Message :=
  { id := message_id, conversation_id := conversation_id, role := role,
    content := content, timestamp := now, metadata := metadata }

/-- The parent-row UPDATE inside `add_message`:
`SET updated_at = ?, message_count = message_count + 1`. -/
def bumpConversation (now : Nat) (c : Conversation) : Conversation :=
  { c with updated_at := now, message_count := c.message_count + 1 }

/-- `JournalingDatabase.add_message`.  The INSERT is subject to the
`CHECK (role IN ('user', 'assistant'))` constraint and to the message-id
PRIMARY KEY; a violation raises before anything is written and the UPDATE
never runs.  The FOREIGN KEY on `conversation_id` is NOT enforced (the
connection never enables `PRAGMA foreign_keys`), so the insert succeeds even
when no such conversation exists.  On success the same transaction UPDATEs
the parent row's `updated_at` and `message_count` and commits both. -/
def add_message (s : DBState) (conversation_id role content : String)
    (metadata : Option String) (message_id : String) (now : Nat) :
    DBState × Except DBErr Message :=
  let message : Message :=
    newMessageRow conversation_id role content metadata message_id now
  if role == "user" || role == "assistant" then
    if s.messages.any (fun m => m.id == message_id) then
      (s, Except.error DBErr.integrityError)
    else
      let s' : DBState :=
        { conversations :=
            s.conversations.map (fun c =>
              if c.id == conversation_id then bumpConversation now c else c),
          messages := s.messages ++ [message] }
      (s', Except.ok message)
  else
    (s, Except.error DBErr.integrityError)

/-- `JournalingDatabase.get_conversation`: `SELECT * FROM conversations
WHERE id = ?`, first (only) matching row or `None`. -/
def get_conversation (s : DBState) (conversation_id : String) :
    Option Conversation :=
  s.conversations.find? (fun c => c.id == conversation_id)

/-- Insert a message into a timestamp-sorted list (ties keep earlier rows
first, matching SQLite's stable rowid order on equal timestamps). -/
def insertByTimestamp (m : Message) : List Message → List Message
  | [] => [m]
  | x :: xs =>
      if x.timestamp ≤ m.timestamp then x :: insertByTimestamp m xs
      else m :: x :: xs

/-- Sort messages by `timestamp ASC` (stable insertion sort). -/
def sortByTimestamp : List Message → List Message
  | [] => []
  | m :: ms => insertByTimestamp m (sortByTimestamp ms)

/-- `JournalingDatabase.get_messages`: `SELECT * FROM messages WHERE
conversation_id = ? ORDER BY timestamp ASC`. -/
def get_messages (s : DBState) (conversation_id : String) : List Message :=
  sortByTimestamp (s.messages.filter (fun m => m.conversation_id == conversation_id))

/-- Effect of the dynamically built `UPDATE conversations SET ...` in
`update_conversation` on one matching row: each supplied field is set, each
`None` field is left alone (it never enters the SET list), and `updated_at`
is always set. -/
def applyMetadataUpdate (title current_mood : Option String)
    (goals : Option (List String)) (now : Nat) (c : Conversation) :
    Conversation :=
  { c with
    title := title.getD c.title,
    current_mood :=
      match current_mood with
      | some m => some m
      | none => c.current_mood,
    goals := goals.getD c.goals,
    updated_at := now }

/-- `JournalingDatabase.update_conversation`: partial metadata update.
Fields passed as `None` are omitted from the SET list; if no field is
supplied the method returns `False` without touching the database.
Otherwise it also bumps `updated_at` and returns `cursor.rowcount > 0`. -/
def update_conversation (s : DBState) (conversation_id : String)
    (title current_mood : Option String) (goals : Option (List String))
    (now : Nat) : DBState × Bool :=
  if title.isNone && current_mood.isNone && goals.isNone then
    (s, false)
  else
    ({ s with conversations :=
        s.conversations.map (fun c =>
          if c.id == conversation_id then
            applyMetadataUpdate title current_mood goals now c
          else c) },
     s.conversations.any (fun c => c.id == conversation_id))

/-- Effect of the UPDATE in `update_conversation_title_and_summary` on one
matching row: `SET title = ?, summary_generated = TRUE, updated_at = ?`. -/
def applyTitleAndSummary (title : String) (now : Nat) (c : Conversation) :
    Conversation :=
  { c with title := title, summary_generated := true, updated_at := now }

/-- `JournalingDatabase.update_conversation_title_and_summary`: sets the
title, sets `summary_generated = TRUE`, bumps `updated_at`, returns
`cursor.rowcount > 0`. -/
def update_conversation_title_and_summary (s : DBState)
    (conversation_id title : String) (now : Nat) : DBState × Bool :=
  ({ s with conversations :=
      s.conversations.map (fun c =>
        if c.id == conversation_id then applyTitleAndSummary title now c
        else c) },
   s.conversations.any (fun c => c.id == conversation_id))

/-- `JournalingDatabase.delete_conversation`: `DELETE FROM conversations
WHERE id = ?`.  The declared `ON DELETE CASCADE` does not fire because the
connection never enables `PRAGMA foreign_keys`, so the `messages` table is
left untouched.  Returns `cursor.rowcount > 0`. -/
def delete_conversation (s : DBState) (conversation_id : String) :
    DBState × Bool :=
  ({ s with conversations :=
      s.conversations.filter (fun c => !(c.id == conversation_id)) },
   s.conversations.any (fun c => c.id == conversation_id))

/-- A `conversations` row as created before the `summary_generated` column
existed (schema version 1). -/
structure ConversationV1 where
  id : String
  title : String
  user_name : Option String
  current_mood : Option String
  goals : List String
  created_at : Nat
  updated_at : Nat
  message_count : Nat
  deriving DecidableEq, Repr

/-- The `conversations` table as found on disk at initialization: either an
old file whose table lacks the `summary_generated` column, or a current one
that has it (`PRAGMA table_info` distinguishes the two). -/
inductive ConversationsTable where
  | withoutSummaryColumn (rows : List ConversationV1)
  | withSummaryColumn (rows : List Conversation)
  deriving DecidableEq, Repr

/-- Effect of `ALTER TABLE conversations ADD COLUMN summary_generated
BOOLEAN DEFAULT FALSE` on one existing row: every field kept, the new
column filled with the default. -/
def addSummaryColumn (r : ConversationV1) : Conversation :=
  { id := r.id, title := r.title, user_name := r.user_name,
    current_mood := r.current_mood, goals := r.goals,
    created_at := r.created_at, updated_at := r.updated_at,
    message_count := r.message_count, summary_generated := false }

/-- `JournalingDatabase._run_migrations`: if `summary_generated` is absent
from `PRAGMA table_info(conversations)`, run the ALTER TABLE above;
otherwise leave the table alone. -/
def run_migrations : ConversationsTable → List Conversation
  | ConversationsTable.withoutSummaryColumn rows => rows.map addSummaryColumn
  | ConversationsTable.withSummaryColumn rows => rows

/-- One Store operation, for reasoning about arbitrary operation sequences.
Generated ids and `datetime.now()` values appear as explicit arguments. -/
inductive Op where
  | createConv (conversation_id title : String)
      (user_name current_mood : Option String) (goals : Option (List String))
      (now : Nat)
  | addMsg (conversation_id role content : String) (metadata : Option String)
      (message_id : String) (now : Nat)
  | updateConv (conversation_id : String) (title current_mood : Option String)
      (goals : Option (List String)) (now : Nat)
  | setTitleAndSummary (conversation_id title : String) (now : Nat)
  | deleteConv (conversation_id : String)
  deriving DecidableEq, Repr

/-- Apply one Store operation to the persistent state (discarding the
returned value). -/
def applyOp (s : DBState) : Op → DBState
  | Op.createConv cid t un cm g n => (create_conversation s cid t un cm g n).1
  | Op.addMsg cid r ct md mid n => (add_message s cid r ct md mid n).1
  | Op.updateConv cid t cm g n => (update_conversation s cid t cm g n).1
  | Op.setTitleAndSummary cid t n =>
      (update_conversation_title_and_summary s cid t n).1
  | Op.deleteConv cid => (delete_conversation s cid).1

/-- Arguments of one `add_message` call against a fixed conversation: the
caller-chosen role/content/metadata and the generated message id and
timestamp. -/
structure AddCall where
  role : String
  content : String
  metadata : Option String
  message_id : String
  now : Nat
  deriving DecidableEq, Repr

/-- Run a sequence of `add_message` calls against one conversation,
stopping (with `none`) if any call raises. -/
def runAdds (conversation_id : String) (s : DBState) :
    List AddCall → Option DBState
  | [] => some s
  | a :: rest =>
      match add_message s conversation_id a.role a.content a.metadata
          a.message_id a.now with
      | (s', Except.ok _) => runAdds conversation_id s' rest
      | (_, Except.error _) => none

/-- The C3 invariant: the conversation row's cached `message_count` equals
the number of rows `get_messages` returns for it. -/
def countConsistent (s : DBState) (conversation_id : String) : Prop :=
  ∃ c, get_conversation s conversation_id = some c
    ∧ c.message_count = (get_messages s conversation_id).length

/-! ## Title summarizer (`summarizer.py`) -/

/-- Outcome of `await self.model.request(...)` in
`ConversationSummarizer.generate_title`: the call either raises, or returns
a response that is `None` or carries a list of parts (each part's `content`
a string). -/
inductive ModelResult where
  | raise
  | respond (response : Option (List String))
  deriving DecidableEq, Repr

/-- The characters the summarizer strips around a model reply: the double
quote and the single quote. -/
def isQuoteChar (c : Char) : Bool :=
  c == '"' || c == '\''

/-- Python two-sided strip with the quote characters as argument: drop
leading and trailing quote characters. -/
def stripQuotes (s : String) : String :=
  String.mk (((s.data.dropWhile isQuoteChar).reverse.dropWhile isQuoteChar).reverse)

/-- `ConversationSummarizer.generate_title`, with the model collaborator's
behaviour supplied as `model`.  Returns the title together with a flag
recording whether `self.model.request` was invoked at all.  Mirrors the
source: empty list and missing first user message are handled first; a first
user message of at most 60 characters is returned trimmed with no model
call; otherwise the model is consulted, its reply cleaned (whitespace strip,
quote strip, whitespace strip), truncated to the first 57 characters plus an
ellipsis beyond 60 characters, with fixed fallbacks for falsy responses; an
exception falls back to the first 50 characters, whitespace-stripped, plus
an ellipsis when the content is longer than 50. -/
def generate_title (model : ModelResult) (messages : List Message) :
    String × Bool :=
  if messages.isEmpty then
    ("Empty conversation", false)
  else
    match messages.find? (fun m => m.role == "user") with
    | none => ("No user message found", false)
    | some first_user_msg =>
        if first_user_msg.content.length ≤ 60 then
          (first_user_msg.content.trim, false)
        else
          match model with
          | ModelResult.raise =>
              let content := (first_user_msg.content.take 50).trim
              let content :=
                if first_user_msg.content.length > 50 then content ++ "..."
                else content
              (content, true)
          | ModelResult.respond response =>
              match response with
              | some (p :: _) =>
                  let title := (stripQuotes p.trim).trim
                  let title :=
                    if title.length > 60 then title.take 57 ++ "..." else title
                  (if title.isEmpty then "Untitled conversation" else title,
                   true)
              | some [] => ("Conversation summary unavailable", true)
              | none => ("Conversation summary unavailable", true)

/-- The state of a freshly created database file: both tables empty. -/
def emptyDB : DBState := { conversations := [], messages := [] }

/-- A concrete short user message, for instantiating theorems. -/
def exShortMsg : Message :=
  { id := "m1", conversation_id := "c1", role := "user", content := " Hi ",
    timestamp := 0, metadata := none }

/-- A concrete long user message (61 characters), for instantiating
theorems. -/
def exLongMsg : Message :=
  { id := "m1", conversation_id := "c1", role := "user",
    content := String.mk (List.replicate 61 'a'),
    timestamp := 0, metadata := none }

/-- A concrete version-1 conversation row, for instantiating theorems. -/
def exV1Row : ConversationV1 :=
  { id := "a", title := "T", user_name := some "u", current_mood := none,
    goals := ["g"], created_at := 1, updated_at := 2, message_count := 3 }

/-- A concrete conversation row with `summary_generated = false`, for
instantiating theorems. -/
def exConvRow : Conversation :=
  { id := "c1", title := "T", user_name := none, current_mood := some "calm",
    goals := ["g"], created_at := 0, updated_at := 0, message_count := 0,
    summary_generated := false }

/-- A concrete conversation row with `summary_generated = true`, for
instantiating theorems. -/
def exConvRowTrue : Conversation :=
  { exConvRow with summary_generated := true }

/-- A concrete database state holding `exConvRow` and no messages. -/
def exDB : DBState := { conversations := [exConvRow], messages := [] }

/-- A concrete database state holding `exConvRowTrue` and no messages. -/
def exDBTrue : DBState := { conversations := [exConvRowTrue], messages := [] }

/-- A concrete two-call `add_message` sequence, for instantiating
theorems. -/
def exCalls : List AddCall :=
  [{ role := "user", content := "Hi", metadata := none,
     message_id := "m1", now := 1 },
   { role := "assistant", content := "Hello", metadata := none,
     message_id := "m2", now := 2 }]

/-! ## Helper lemmas -/

theorem find?_map_ite (l : List Conversation) (cid cid' : String)
    (g : Conversation → Conversation) (hg : ∀ c, (g c).id = c.id) :
    (l.map (fun c => if c.id == cid' then g c else c)).find?
        (fun c => c.id == cid)
      = (l.find? (fun c => c.id == cid)).map
          (fun c => if c.id == cid' then g c else c) := by
  induction l with
  | nil => rfl
  | cons x t ih =>
      have hid : ((if (x.id == cid') = true then g x else x).id) = x.id := by
        by_cases h2 : (x.id == cid') = true
        · rw [if_pos h2]; exact hg x
        · rw [if_neg h2]
      simp only [List.map_cons, List.find?_cons, hid]
      cases hx : x.id == cid with
      | false => exact ih
      | true => rfl

theorem find?_filter_of_imp {α : Type} (l : List α) (p q : α → Bool)
    (h : ∀ a, p a = true → q a = true) :
    (l.filter q).find? p = l.find? p := by
  induction l with
  | nil => rfl
  | cons x t ih =>
      cases hq : q x with
      | false =>
          have hp : p x = false := by
            cases hpx : p x with
            | false => rfl
            | true =>
                have hqx := h x hpx
                rw [hq] at hqx
                exact (Bool.false_ne_true hqx).elim
          simp only [List.filter_cons, hq, if_neg Bool.false_ne_true,
            List.find?_cons, hp, ih]
      | true =>
          cases hpx : p x with
          | false =>
              simp only [List.filter_cons, hq, if_true, eq_self_iff_true,
                List.find?_cons, hpx, ih]
          | true =>
              simp only [List.filter_cons, hq, if_true, eq_self_iff_true,
                List.find?_cons, hpx]

theorem any_of_find?_eq_some {α : Type} {l : List α} {p : α → Bool}
    {a : α} (h : l.find? p = some a) : l.any p = true :=
  List.any_eq_true.mpr ⟨a, List.mem_of_find?_eq_some h, List.find?_some h⟩

theorem find?_eq_none_of_any_eq_false {α : Type} {l : List α} {p : α → Bool}
    (h : l.any p = false) : l.find? p = none := by
  rw [List.find?_eq_none]
  intro x hx hpx
  have : l.any p = true := List.any_eq_true.mpr ⟨x, hx, hpx⟩
  rw [this] at h
  exact Bool.true_eq_false.mp h

theorem length_insertByTimestamp (m : Message) (l : List Message) :
    (insertByTimestamp m l).length = l.length + 1 := by
  induction l with
  | nil => rfl
  | cons x xs ih =>
      by_cases h : x.timestamp ≤ m.timestamp
      · rw [insertByTimestamp, if_pos h, List.length_cons, ih, List.length_cons]
      · rw [insertByTimestamp, if_neg h, List.length_cons, List.length_cons]

theorem length_sortByTimestamp (l : List Message) :
    (sortByTimestamp l).length = l.length := by
  induction l with
  | nil => rfl
  | cons m ms ih =>
      rw [sortByTimestamp, length_insertByTimestamp, ih, List.length_cons]

theorem length_get_messages (s : DBState) (cid : String) :
    (get_messages s cid).length
      = (s.messages.filter (fun m => m.conversation_id == cid)).length := by
  rw [get_messages, length_sortByTimestamp]

theorem get_conversation_after_title_summary (s : DBState)
    (cid title : String) (now : Nat) :
    get_conversation
        ((update_conversation_title_and_summary s cid title now).1) cid
      = (get_conversation s cid).map (applyTitleAndSummary title now) := by
  simp only [get_conversation, update_conversation_title_and_summary]
  rw [find?_map_ite s.conversations cid cid (applyTitleAndSummary title now)
    (fun c => rfl)]
  cases hf : s.conversations.find? (fun c => c.id == cid) with
  | none => rfl
  | some c =>
      have hc : (c.id == cid) = true :=
        List.find?_some (p := fun (c : Conversation) => c.id == cid) hf
      simp only [Option.map_some', hc, if_true]

theorem get_conversation_after_update_some (s : DBState) (cid : String)
    (title current_mood : Option String) (goals : Option (List String))
    (now : Nat)
    (hne : (title.isNone && current_mood.isNone && goals.isNone) = false) :
    get_conversation
        ((update_conversation s cid title current_mood goals now).1) cid
      = (get_conversation s cid).map
          (applyMetadataUpdate title current_mood goals now) := by
  simp only [get_conversation, update_conversation, hne,
    Bool.false_eq_true, if_false]
  rw [find?_map_ite s.conversations cid cid
    (applyMetadataUpdate title current_mood goals now) (fun c => rfl)]
  cases hf : s.conversations.find? (fun c => c.id == cid) with
  | none => rfl
  | some c =>
      have hc : (c.id == cid) = true :=
        List.find?_some (p := fun (c : Conversation) => c.id == cid) hf
      simp only [Option.map_some', hc, if_true]

theorem get_conversation_after_add (s : DBState)
    (cid role content : String) (md : Option String) (mid : String)
    (now : Nat) :
    get_conversation ((add_message s cid role content md mid now).1) cid
      = (get_conversation s cid).map (bumpConversation now)
    ∨ (add_message s cid role content md mid now).1 = s := by
  simp only [add_message]
  split
  · split
    · exact Or.inr rfl
    · refine Or.inl ?_
      simp only [get_conversation]
      rw [find?_map_ite s.conversations cid cid (bumpConversation now)
        (fun c => rfl)]
      cases hf : s.conversations.find? (fun c => c.id == cid) with
      | none => rfl
      | some c =>
          have hc : (c.id == cid) = true :=
            List.find?_some (p := fun (c : Conversation) => c.id == cid) hf
          simp only [Option.map_some', hc, if_true]
  · exact Or.inr rfl

theorem create_conversation_ok {s s' : DBState} {cid t : String}
    {un cm : Option String} {g : Option (List String)} {now : Nat}
    {conv : Conversation}
    (h : create_conversation s cid t un cm g now = (s', Except.ok conv)) :
    s.conversations.any (fun c => c.id == cid) = false
    ∧ s' = { s with conversations := s.conversations ++ [conv] }
    ∧ conv = newConversationRow cid t un cm (g.getD []) now := by
  simp only [create_conversation] at h
  split at h
  · exact absurd (congrArg Prod.snd h) (by simp)
  · next hany =>
      have h1 := congrArg Prod.fst h
      have h2 := congrArg Prod.snd h
      simp only at h1 h2
      have hconv : conv = newConversationRow cid t un cm (g.getD []) now :=
        (Except.ok.inj h2).symm
      exact ⟨Bool.not_eq_true _ |>.mp hany, by rw [← h1, hconv], hconv⟩

theorem add_message_ok {s s' : DBState} {cid role content : String}
    {md : Option String} {mid : String} {now : Nat} {msg : Message}
    (h : add_message s cid role content md mid now = (s', Except.ok msg)) :
    msg = newMessageRow cid role content md mid now
    ∧ s' = { conversations :=
               s.conversations.map (fun c =>
                 if c.id == cid then bumpConversation now c else c),
             messages := s.messages ++ [msg] } := by
  simp only [add_message] at h
  split at h
  · split at h
    · exact absurd (congrArg Prod.snd h) (by simp)
    · have h1 := congrArg Prod.fst h
      have h2 := congrArg Prod.snd h
      simp only at h1 h2
      have hmsg : msg = newMessageRow cid role content md mid now :=
        (Except.ok.inj h2).symm
      exact ⟨hmsg, by rw [← h1, hmsg]⟩
  · exact absurd (congrArg Prod.snd h) (by simp)

theorem get_conversation_after_delete_self (s : DBState) (cid : String) :
    get_conversation ((delete_conversation s cid).1) cid = none := by
  simp only [get_conversation, delete_conversation]
  rw [List.find?_eq_none]
  intro x hx
  have hq := List.of_mem_filter hx
  intro hp
  rw [hp] at hq
  exact Bool.false_ne_true hq

theorem get_conversation_after_delete_other (s : DBState)
    (cid cid' : String) (hne : cid ≠ cid') :
    get_conversation ((delete_conversation s cid').1) cid
      = get_conversation s cid := by
  simp only [get_conversation, delete_conversation]
  refine find?_filter_of_imp _ _ _ (fun a ha => ?_)
  have : a.id = cid := by simpa using ha
  simp [this, hne]

/-! ## Claim theorems -/

/-- C1: the spec claims `deleteConversation(id)` cascades: afterwards
`getMessages(id)` is empty and `getConversation(id)` is absent.  The schema
declares `ON DELETE CASCADE` and the docstring of `delete_conversation`
promises to delete the messages, but the connection never executes
`PRAGMA foreign_keys = ON`, so SQLite leaves the messages in place.  In the
concrete run below a conversation with one message is deleted: the
conversation is gone, yet `get_messages` still returns the message. -/
theorem delete_conversation_leaves_messages_behind :
    get_conversation
        ((delete_conversation
          ((add_message
            ((create_conversation emptyDB "c1" "Test" none none none 0).1)
            "c1" "user" "Hi" none "m1" 1).1)
          "c1").1)
        "c1" = none
    ∧ get_messages
        ((delete_conversation
          ((add_message
            ((create_conversation emptyDB "c1" "Test" none none none 0).1)
            "c1" "user" "Hi" none "m1" 1).1)
          "c1").1)
        "c1"
      = [{ id := "m1", conversation_id := "c1", role := "user",
           content := "Hi", timestamp := 1, metadata := none }] := by
  decide

/-- C2: the spec claims `addMessage` fails with `NotFoundError` when the
conversation does not exist and persists nothing.  The code performs no
existence check, and the declared FOREIGN KEY is not enforced because
`PRAGMA foreign_keys` is never enabled, so the insert succeeds and commits
an orphan message row. -/
theorem add_message_to_missing_conversation_succeeds :
    add_message emptyDB "missing" "user" "Hello" none "m1" 5
      = ({ conversations := [],
           messages := [{ id := "m1", conversation_id := "missing",
                          role := "user", content := "Hello", timestamp := 5,
                          metadata := none }] },
         Except.ok { id := "m1", conversation_id := "missing",
                     role := "user", content := "Hello", timestamp := 5,
                     metadata := none }) := by
  rfl

/-- C9: a role other than `user` or `assistant` violates the `CHECK`
constraint on the `messages` table, which SQLite does enforce: the INSERT
raises before anything is written, the UPDATE of the parent row never runs,
and the state — including the parent conversation's `message_count` and
`updated_at` — is exactly as before. -/
theorem invalid_role_rejected_before_any_write (s : DBState)
    (conversation_id role content : String) (metadata : Option String)
    (message_id : String) (now : Nat)
    (h1 : role ≠ "user") (h2 : role ≠ "assistant") :
    add_message s conversation_id role content metadata message_id now
      = (s, Except.error DBErr.integrityError) := by
  have hrole : (role == "user" || role == "assistant") = false := by
    simp [h1, h2]
  rw [add_message, hrole, if_neg Bool.false_ne_true]

/-- Witness for C9 at the concrete role `system`. -/
theorem invalid_role_rejected_before_any_write_witness :
    ("system" : String) ≠ "user" ∧ ("system" : String) ≠ "assistant" ∧
    add_message emptyDB "c1" "system" "Hi" none "m1" 0
      = (emptyDB, Except.error DBErr.integrityError) :=
  ⟨by decide, by decide,
   invalid_role_rejected_before_any_write emptyDB "c1" "system" "Hi" none
     "m1" 0 (by decide) (by decide)⟩

/-- C5: when the first user message is at most 60 characters long,
`generate_title` returns its content trimmed, whatever the model
collaborator would do, and never invokes the collaborator (the returned
flag is `false`). -/
theorem short_first_user_message_title_verbatim_no_model_call
    (model : ModelResult) (messages : List Message) (m : Message)
    (hfind : messages.find? (fun x => x.role == "user") = some m)
    (hlen : m.content.length ≤ 60) :
    generate_title model messages = (m.content.trim, false) := by
  have hne : messages.isEmpty = false := by
    cases messages with
    | nil => exact absurd hfind (by simp)
    | cons a t => rfl
  rw [generate_title, hne, if_neg Bool.false_ne_true, hfind]
  exact if_pos hlen

/-- Witness for C5 at a concrete four-character message. -/
theorem short_first_user_message_title_verbatim_no_model_call_witness :
    ([exShortMsg] : List Message).find? (fun x => x.role == "user")
        = some exShortMsg
    ∧ exShortMsg.content.length ≤ 60
    ∧ generate_title ModelResult.raise [exShortMsg]
        = (exShortMsg.content.trim, false) :=
  ⟨by decide, by decide,
   short_first_user_message_title_verbatim_no_model_call ModelResult.raise
     [exShortMsg] exShortMsg (by decide) (by decide)⟩

/-- C6: opening a database whose `conversations` table lacks the
`summary_generated` column runs the ALTER TABLE migration: the table keeps
the same number of rows, and every pre-existing row keeps all of its fields
while the new column is filled with the default `false`. -/
theorem migration_adds_summary_column_without_data_loss
    (rows : List ConversationV1) (i : Nat) (hi : i < rows.length)
    (hj : i < (run_migrations (ConversationsTable.withoutSummaryColumn rows)).length) :
    (run_migrations (ConversationsTable.withoutSummaryColumn rows)).length
        = rows.length
    ∧ ((run_migrations (ConversationsTable.withoutSummaryColumn rows)).get
        ⟨i, hj⟩).id = (rows.get ⟨i, hi⟩).id
    ∧ ((run_migrations (ConversationsTable.withoutSummaryColumn rows)).get
        ⟨i, hj⟩).title = (rows.get ⟨i, hi⟩).title
    ∧ ((run_migrations (ConversationsTable.withoutSummaryColumn rows)).get
        ⟨i, hj⟩).user_name = (rows.get ⟨i, hi⟩).user_name
    ∧ ((run_migrations (ConversationsTable.withoutSummaryColumn rows)).get
        ⟨i, hj⟩).current_mood = (rows.get ⟨i, hi⟩).current_mood
    ∧ ((run_migrations (ConversationsTable.withoutSummaryColumn rows)).get
        ⟨i, hj⟩).goals = (rows.get ⟨i, hi⟩).goals
    ∧ ((run_migrations (ConversationsTable.withoutSummaryColumn rows)).get
        ⟨i, hj⟩).created_at = (rows.get ⟨i, hi⟩).created_at
    ∧ ((run_migrations (ConversationsTable.withoutSummaryColumn rows)).get
        ⟨i, hj⟩).updated_at = (rows.get ⟨i, hi⟩).updated_at
    ∧ ((run_migrations (ConversationsTable.withoutSummaryColumn rows)).get
        ⟨i, hj⟩).message_count = (rows.get ⟨i, hi⟩).message_count
    ∧ ((run_migrations (ConversationsTable.withoutSummaryColumn rows)).get
        ⟨i, hj⟩).summary_generated = false := by
  simp [run_migrations, addSummaryColumn, List.get_eq_getElem,
    List.getElem_map, List.length_map]

/-- Witness for C6 at a one-row version-1 table. -/
theorem migration_adds_summary_column_without_data_loss_witness :
    (0 : Nat) < ([exV1Row] : List ConversationV1).length
    ∧ (run_migrations
        (ConversationsTable.withoutSummaryColumn [exV1Row])).length
        = ([exV1Row] : List ConversationV1).length :=
  ⟨by decide,
   (migration_adds_summary_column_without_data_loss [exV1Row] 0
     (by decide) (by decide)).1⟩

/-- C7: on an existing conversation, committing a title twice returns
`true` both times, leaves `summary_generated = true` after each call, and
the latest title wins. -/
theorem set_title_and_mark_summarized_idempotent
    (s : DBState) (cid t1 t2 : String) (n1 n2 : Nat) (c : Conversation)
    (h : get_conversation s cid = some c) :
    (update_conversation_title_and_summary s cid t1 n1).2 = true
    ∧ (∃ c1, get_conversation
          ((update_conversation_title_and_summary s cid t1 n1).1) cid
          = some c1
        ∧ c1.title = t1 ∧ c1.summary_generated = true)
    ∧ (update_conversation_title_and_summary
        ((update_conversation_title_and_summary s cid t1 n1).1)
        cid t2 n2).2 = true
    ∧ (∃ c2, get_conversation
          ((update_conversation_title_and_summary
            ((update_conversation_title_and_summary s cid t1 n1).1)
            cid t2 n2).1) cid
          = some c2
        ∧ c2.title = t2 ∧ c2.summary_generated = true) := by
  have h' : s.conversations.find? (fun c => c.id == cid) = some c := h
  have e1 := get_conversation_after_title_summary s cid t1 n1
  rw [h, Option.map_some'] at e1
  have e1' : ((update_conversation_title_and_summary s cid t1 n1).1
      ).conversations.find? (fun c => c.id == cid)
      = some (applyTitleAndSummary t1 n1 c) := e1
  have e2 := get_conversation_after_title_summary
    ((update_conversation_title_and_summary s cid t1 n1).1) cid t2 n2
  rw [e1, Option.map_some'] at e2
  refine ⟨any_of_find?_eq_some h', ⟨_, e1, rfl, rfl⟩,
    any_of_find?_eq_some e1', ⟨_, e2, rfl, rfl⟩⟩

/-- Witness for C7 on a concrete one-conversation database. -/
theorem set_title_and_mark_summarized_idempotent_witness :
    get_conversation exDB "c1" = some exConvRow
    ∧ (∃ c2, get_conversation
          ((update_conversation_title_and_summary
            ((update_conversation_title_and_summary exDB "c1" "A" 1).1)
            "c1" "B" 2).1) "c1"
          = some c2
        ∧ c2.title = "B" ∧ c2.summary_generated = true) :=
  ⟨by decide,
   (set_title_and_mark_summarized_idempotent exDB "c1" "A" "B" 1 2 exConvRow
     (by decide)).2.2.2⟩

/-- C10: `update_conversation` treats `None` as "not supplied": each of
title, mood and goals afterwards is either the supplied non-`None` value or
the previous value, and a previously set mood can never be cleared back to
absent by any call. -/
theorem update_conversation_never_clears_fields
    (s : DBState) (cid : String) (title current_mood : Option String)
    (goals : Option (List String)) (now : Nat) (c : Conversation)
    (h : get_conversation s cid = some c) :
    ∃ c', get_conversation
        ((update_conversation s cid title current_mood goals now).1) cid
        = some c'
      ∧ c'.title = title.getD c.title
      ∧ c'.goals = goals.getD c.goals
      ∧ (∀ m, current_mood = some m → c'.current_mood = some m)
      ∧ (current_mood = none → c'.current_mood = c.current_mood)
      ∧ (c.current_mood.isSome = true → c'.current_mood.isSome = true) := by
  by_cases hall : (title.isNone && current_mood.isNone && goals.isNone) = true
  · have hsplit := hall
    simp only [Bool.and_eq_true, Option.isNone_iff_eq_none] at hsplit
    obtain ⟨⟨ht, hm⟩, hg⟩ :
        (title = none ∧ current_mood = none) ∧ goals = none := hsplit
    subst ht; subst hm; subst hg
    have hs : (update_conversation s cid none none none now).1 = s := rfl
    rw [hs]
    refine ⟨c, h, rfl, rfl, ?_, fun _ => rfl, fun hs => hs⟩
    intro m hm
    exact Option.noConfusion hm
  · have hne : (title.isNone && current_mood.isNone && goals.isNone) = false :=
      Bool.not_eq_true _ |>.mp hall
    have e := get_conversation_after_update_some s cid title current_mood
      goals now hne
    rw [h, Option.map_some'] at e
    refine ⟨_, e, rfl, rfl, ?_, ?_, ?_⟩
    · intro m hm; subst hm; rfl
    · intro hm; subst hm; rfl
    · intro hsome
      cases hm : current_mood with
      | some m => simp [applyMetadataUpdate, hm]
      | none =>
          subst hm
          simpa [applyMetadataUpdate] using hsome

/-- Witness for C10: supplying only a new title on a conversation whose
mood is set keeps the mood. -/
theorem update_conversation_never_clears_fields_witness :
    get_conversation exDB "c1" = some exConvRow
    ∧ (∃ c', get_conversation
          ((update_conversation exDB "c1" (some "New") none none 9).1) "c1"
          = some c'
        ∧ c'.title = (some "New").getD exConvRow.title
        ∧ c'.goals = (none : Option (List String)).getD exConvRow.goals
        ∧ (∀ m, (none : Option String) = some m → c'.current_mood = some m)
        ∧ ((none : Option String) = none
            → c'.current_mood = exConvRow.current_mood)
        ∧ (exConvRow.current_mood.isSome = true
            → c'.current_mood.isSome = true)) :=
  ⟨by decide,
   update_conversation_never_clears_fields exDB "c1" (some "New") none none 9
     exConvRow (by decide)⟩

/-- C4 counterexample: a 61-character first user message satisfies the
claim's precondition, and an empty reply from the collaborator is one of
the failures the claim covers; but `generate_title` then returns the fixed
string `Conversation summary unavailable`, not the first 50 characters of
the message followed by an ellipsis. -/
theorem title_fallback_counterexample :
    60 < exLongMsg.content.length
    ∧ (generate_title (ModelResult.respond none) [exLongMsg]).1
        = "Conversation summary unavailable"
    ∧ (generate_title (ModelResult.respond none) [exLongMsg]).1
        ≠ (exLongMsg.content.take 50) ++ "..." := by
  set_option maxRecDepth 8192 in
  refine ⟨by decide, by decide, by decide⟩

/-- C4 amended: for a first user message longer than 60 characters, a
raising collaborator makes `generate_title` return the first 50 characters
of the message, trimmed of surrounding whitespace, followed by the ellipsis
marker, without propagating the failure; an empty reply (a `None` response
or a response with no parts) instead yields the fixed string
`Conversation summary unavailable`. -/
theorem title_fallback_amended (messages : List Message) (m : Message)
    (hfind : messages.find? (fun x => x.role == "user") = some m)
    (hlen : 60 < m.content.length) :
    generate_title ModelResult.raise messages
        = ((m.content.take 50).trim ++ "...", true)
    ∧ generate_title (ModelResult.respond none) messages
        = ("Conversation summary unavailable", true)
    ∧ generate_title (ModelResult.respond (some [])) messages
        = ("Conversation summary unavailable", true) := by
  have hne : messages.isEmpty = false := by
    cases messages with
    | nil => exact absurd hfind (by simp)
    | cons a t => rfl
  have hnotle : ¬ m.content.length ≤ 60 := Nat.not_le.mpr hlen
  have h50 : m.content.length > 50 := Nat.lt_trans (by norm_num) hlen
  refine ⟨?_, ?_, ?_⟩
  · rw [generate_title, hne, if_neg Bool.false_ne_true, hfind]
    show (if m.content.length ≤ 60 then (m.content.trim, false)
          else ((if m.content.length > 50
                 then (m.content.take 50).trim ++ "..."
                 else (m.content.take 50).trim), true))
        = ((m.content.take 50).trim ++ "...", true)
    rw [if_neg hnotle, if_pos h50]
  · rw [generate_title, hne, if_neg Bool.false_ne_true, hfind]
    show (if m.content.length ≤ 60 then (m.content.trim, false)
          else ("Conversation summary unavailable", true))
        = ("Conversation summary unavailable", true)
    rw [if_neg hnotle]
  · rw [generate_title, hne, if_neg Bool.false_ne_true, hfind]
    show (if m.content.length ≤ 60 then (m.content.trim, false)
          else ("Conversation summary unavailable", true))
        = ("Conversation summary unavailable", true)
    rw [if_neg hnotle]

theorem add_message_preserves_countConsistent {s s' : DBState}
    {cid : String} (a : AddCall) {msg : Message}
    (hok : add_message s cid a.role a.content a.metadata a.message_id a.now
      = (s', Except.ok msg))
    (hinv : countConsistent s cid) : countConsistent s' cid := by
  obtain ⟨hmsg, hs'⟩ := add_message_ok hok
  obtain ⟨c, hc, hcount⟩ := hinv
  have hc' : s.conversations.find? (fun c => c.id == cid) = some c := hc
  have hcid : (c.id == cid) = true :=
    List.find?_some (p := fun (c : Conversation) => c.id == cid) hc'
  subst hs'
  refine ⟨bumpConversation a.now c, ?_, ?_⟩
  · show (s.conversations.map _).find? _ = _
    rw [find?_map_ite s.conversations cid cid (bumpConversation a.now)
      (fun c => rfl), hc', Option.map_some', if_pos hcid]
  · have hmem : (msg.conversation_id == cid) = true := by
      rw [hmsg]; exact beq_self_eq_true cid
    rw [length_get_messages]
    show c.message_count + 1 = _
    rw [show ({ conversations := _, messages := s.messages ++ [msg] } :
        DBState).messages = s.messages ++ [msg] from rfl]
    rw [List.filter_append, List.length_append]
    have hone : ([msg].filter (fun m => m.conversation_id == cid)) = [msg] := by
      simp only [List.filter_cons, hmem, if_true, eq_self_iff_true,
        List.filter_nil]
    rw [hone]
    rw [hcount, length_get_messages]
    rfl

theorem runAdds_preserves_countConsistent (cid : String)
    (calls : List AddCall) :
    ∀ s s', runAdds cid s calls = some s' → countConsistent s cid →
      countConsistent s' cid := by
  induction calls with
  | nil =>
      intro s s' h hinv
      rw [runAdds] at h
      rw [← Option.some.inj h]
      exact hinv
  | cons a rest ih =>
      intro s s' h hinv
      rw [runAdds] at h
      cases hadd : add_message s cid a.role a.content a.metadata
          a.message_id a.now with
      | mk s1 r =>
          rw [hadd] at h
          cases r with
          | ok m =>
              exact ih s1 s' h
                (add_message_preserves_countConsistent a hadd hinv)
          | error e => exact Option.noConfusion h

/-- C3: starting from a freshly created conversation (in a store holding no
stray messages under its id), any sequence of successful `add_message`
calls targeting it leaves the cached `message_count` equal to the number of
rows `get_messages` returns. -/
theorem message_count_matches_get_messages
    (s₀ s₁ s₂ : DBState) (cid title : String) (un cm : Option String)
    (g : Option (List String)) (now : Nat) (conv : Conversation)
    (calls : List AddCall)
    (hcreate : create_conversation s₀ cid title un cm g now
      = (s₁, Except.ok conv))
    (hclean : ∀ m ∈ s₀.messages, ¬ m.conversation_id = cid)
    (hrun : runAdds cid s₁ calls = some s₂) :
    ∃ c, get_conversation s₂ cid = some c
      ∧ c.message_count = (get_messages s₂ cid).length := by
  obtain ⟨hany, hs₁, hconv⟩ := create_conversation_ok hcreate
  have hinv₁ : countConsistent s₁ cid := by
    refine ⟨conv, ?_, ?_⟩
    · subst hs₁
      show (s₀.conversations ++ [conv]).find? (fun c => c.id == cid)
        = some conv
      rw [List.find?_append, find?_eq_none_of_any_eq_false hany,
        Option.none_or, List.find?_singleton]
      have hid : (conv.id == cid) = true := by
        rw [hconv]; exact beq_self_eq_true cid
      rw [if_pos hid]
    · subst hs₁
      rw [hconv]
      show 0 = _
      rw [length_get_messages]
      have hnil : s₀.messages.filter (fun m => m.conversation_id == cid)
          = [] := by
        rw [List.filter_eq_nil_iff]
        intro a ha
        simp [hclean a ha]
      show 0 = (s₀.messages.filter (fun m => m.conversation_id == cid)).length
      rw [hnil]
      rfl
  exact runAdds_preserves_countConsistent cid calls s₁ s₂ hrun hinv₁

/-- Witness for C3: create a conversation and add two messages; the count
is consistent with `get_messages`. -/
theorem message_count_matches_get_messages_witness :
    (∀ m ∈ emptyDB.messages, ¬ m.conversation_id = "c1")
    ∧ (∃ c, get_conversation
          ((runAdds "c1"
            (create_conversation emptyDB "c1" "T" none none none 0).1
            exCalls).getD emptyDB) "c1" = some c
        ∧ c.message_count
            = (get_messages
                ((runAdds "c1"
                  (create_conversation emptyDB "c1" "T" none none none 0).1
                  exCalls).getD emptyDB) "c1").length) :=
  ⟨fun m hm => absurd hm (by simp [emptyDB]),
   message_count_matches_get_messages emptyDB
     (create_conversation emptyDB "c1" "T" none none none 0).1
     ((runAdds "c1" (create_conversation emptyDB "c1" "T" none none none 0).1
       exCalls).getD emptyDB)
     "c1" "T" none none none 0 (newConversationRow "c1" "T" none none [] 0)
     exCalls rfl (fun m hm => absurd hm (by simp [emptyDB]))
     rfl⟩

theorem find?_map_ite_of_find? {l : List Conversation} {cid cid' : String}
    {g : Conversation → Conversation} (hg : ∀ c, (g c).id = c.id)
    {c c' : Conversation}
    (h : l.find? (fun x => x.id == cid) = some c)
    (h' : (l.map (fun x => if x.id == cid' then g x else x)).find?
        (fun x => x.id == cid) = some c') :
    c' = if (c.id == cid') = true then g c else c := by
  rw [find?_map_ite l cid cid' g hg, h, Option.map_some'] at h'
  exact (Option.some.inj h').symm

theorem find?_create {s : DBState} {cid cid' t : String}
    {un cm : Option String} {g : Option (List String)} {n : Nat}
    (hne : cid' ≠ cid) :
    get_conversation ((create_conversation s cid' t un cm g n).1) cid
      = get_conversation s cid := by
  simp only [create_conversation, get_conversation]
  split
  · rfl
  · show (s.conversations
        ++ [newConversationRow cid' t un cm (g.getD []) n]).find?
        (fun x => x.id == cid) = _
    rw [List.find?_append, List.find?_singleton]
    have hrow : ((newConversationRow cid' t un cm (g.getD []) n).id == cid)
        = false := beq_eq_false_iff_ne.mpr hne
    rw [hrow, if_neg Bool.false_ne_true, Option.or_none]

theorem flag_flip_only_by_title_commit (s : DBState) (op : Op)
    (cid : String) (c c' : Conversation)
    (h : get_conversation s cid = some c)
    (h' : get_conversation (applyOp s op) cid = some c')
    (hfalse : c.summary_generated = false)
    (htrue : c'.summary_generated = true) :
    ∃ t n, op = Op.setTitleAndSummary cid t n := by
  have hfind : s.conversations.find? (fun x => x.id == cid) = some c := h
  have hcid : (c.id == cid) = true :=
    List.find?_some (p := fun (x : Conversation) => x.id == cid) hfind
  cases op with
  | createConv cid' t un cm g n =>
      exfalso
      simp only [applyOp] at h'
      by_cases hcc : cid' = cid
      · subst hcc
        have hany : (s.conversations.any (fun x => x.id == cid')) = true :=
          any_of_find?_eq_some hfind
        have hs : (create_conversation s cid' t un cm g n).1 = s := by
          simp only [create_conversation, hany, if_true]
        rw [hs, h] at h'
        rw [← Option.some.inj h', hfalse] at htrue
        exact Bool.false_ne_true htrue
      · rw [find?_create hcc, h] at h'
        rw [← Option.some.inj h', hfalse] at htrue
        exact Bool.false_ne_true htrue
  | addMsg cid' r ct md mid n =>
      exfalso
      simp only [applyOp, add_message] at h'
      split at h'
      · split at h'
        · have h'' : get_conversation s cid = some c' := h'
          rw [h] at h''
          rw [← Option.some.inj h'', hfalse] at htrue
          exact Bool.false_ne_true htrue
        · have h'2 : (s.conversations.map (fun x =>
              if x.id == cid' then bumpConversation n x else x)).find?
              (fun x => x.id == cid) = some c' := h'
          have heq := find?_map_ite_of_find? (g := bumpConversation n)
            (fun _ => rfl) hfind h'2
          by_cases hcc : (c.id == cid') = true
          · rw [if_pos hcc] at heq
            rw [heq] at htrue
            rw [show (bumpConversation n c).summary_generated
                = c.summary_generated from rfl, hfalse] at htrue
            exact Bool.false_ne_true htrue
          · rw [if_neg hcc] at heq
            rw [heq, hfalse] at htrue
            exact Bool.false_ne_true htrue
      · have h'' : get_conversation s cid = some c' := h'
        rw [h] at h''
        rw [← Option.some.inj h'', hfalse] at htrue
        exact Bool.false_ne_true htrue
  | updateConv cid' t cm g n =>
      exfalso
      simp only [applyOp, update_conversation] at h'
      split at h'
      · have h'' : get_conversation s cid = some c' := h'
        rw [h] at h''
        rw [← Option.some.inj h'', hfalse] at htrue
        exact Bool.false_ne_true htrue
      · have h'2 : (s.conversations.map (fun x =>
            if x.id == cid' then applyMetadataUpdate t cm g n x else x)).find?
            (fun x => x.id == cid) = some c' := h'
        have heq := find?_map_ite_of_find? (g := applyMetadataUpdate t cm g n)
          (fun _ => rfl) hfind h'2
        by_cases hcc : (c.id == cid') = true
        · rw [if_pos hcc] at heq
          rw [heq] at htrue
          rw [show (applyMetadataUpdate t cm g n c).summary_generated
              = c.summary_generated from rfl, hfalse] at htrue
          exact Bool.false_ne_true htrue
        · rw [if_neg hcc] at heq
          rw [heq, hfalse] at htrue
          exact Bool.false_ne_true htrue
  | setTitleAndSummary cid' t n =>
      by_cases hcc : cid' = cid
      · exact ⟨t, n, by rw [hcc]⟩
      · exfalso
        simp only [applyOp, update_conversation_title_and_summary] at h'
        have h'2 : (s.conversations.map (fun x =>
            if x.id == cid' then applyTitleAndSummary t n x else x)).find?
            (fun x => x.id == cid) = some c' := h'
        have heq := find?_map_ite_of_find? (g := applyTitleAndSummary t n)
          (fun _ => rfl) hfind h'2
        have hid : c.id = cid := by simpa using hcid
        have hno : (c.id == cid') = false := by
          rw [hid]
          exact beq_eq_false_iff_ne.mpr (fun hh => hcc hh.symm)
        rw [hno, if_neg Bool.false_ne_true] at heq
        rw [heq, hfalse] at htrue
        exact Bool.false_ne_true htrue
  | deleteConv cid' =>
      exfalso
      simp only [applyOp] at h'
      by_cases hcc : cid' = cid
      · subst hcc
        rw [get_conversation_after_delete_self] at h'
        exact Option.noConfusion h'
      · rw [get_conversation_after_delete_other s cid cid'
          (fun hh => hcc hh.symm), h] at h'
        rw [← Option.some.inj h', hfalse] at htrue
        exact Bool.false_ne_true htrue

theorem flag_true_preserved_step (s : DBState) (op : Op) (cid : String)
    (hop : ∀ t un cm g n, op ≠ Op.createConv cid t un cm g n)
    (h : ∀ c, get_conversation s cid = some c → c.summary_generated = true) :
    ∀ c', get_conversation (applyOp s op) cid = some c' →
      c'.summary_generated = true := by
  intro c' h'
  cases op with
  | createConv cid' t un cm g n =>
      have hne : cid' ≠ cid := fun hcc => hop t un cm g n (by rw [hcc])
      simp only [applyOp] at h'
      rw [find?_create hne] at h'
      exact h c' h'
  | addMsg cid' r ct md mid n =>
      simp only [applyOp, add_message] at h'
      split at h'
      · split at h'
        · exact h c' h'
        · have h'2 : (s.conversations.map (fun x =>
              if x.id == cid' then bumpConversation n x else x)).find?
              (fun x => x.id == cid) = some c' := h'
          rw [find?_map_ite s.conversations cid cid' (bumpConversation n)
            (fun _ => rfl)] at h'2
          cases hf : s.conversations.find? (fun x => x.id == cid) with
          | none => rw [hf] at h'2; exact Option.noConfusion h'2
          | some c0 =>
              rw [hf, Option.map_some'] at h'2
              have heq := (Option.some.inj h'2).symm
              have hc0 := h c0 hf
              by_cases hcc : (c0.id == cid') = true
              · rw [if_pos hcc] at heq; rw [heq]; exact hc0
              · rw [if_neg hcc] at heq; rw [heq]; exact hc0
      · exact h c' h'
  | updateConv cid' t cm g n =>
      simp only [applyOp, update_conversation] at h'
      split at h'
      · exact h c' h'
      · have h'2 : (s.conversations.map (fun x =>
            if x.id == cid' then applyMetadataUpdate t cm g n x else x)).find?
            (fun x => x.id == cid) = some c' := h'
        rw [find?_map_ite s.conversations cid cid'
          (applyMetadataUpdate t cm g n) (fun _ => rfl)] at h'2
        cases hf : s.conversations.find? (fun x => x.id == cid) with
        | none => rw [hf] at h'2; exact Option.noConfusion h'2
        | some c0 =>
            rw [hf, Option.map_some'] at h'2
            have heq := (Option.some.inj h'2).symm
            have hc0 := h c0 hf
            by_cases hcc : (c0.id == cid') = true
            · rw [if_pos hcc] at heq; rw [heq]; exact hc0
            · rw [if_neg hcc] at heq; rw [heq]; exact hc0
  | setTitleAndSummary cid' t n =>
      simp only [applyOp, update_conversation_title_and_summary] at h'
      have h'2 : (s.conversations.map (fun x =>
          if x.id == cid' then applyTitleAndSummary t n x else x)).find?
          (fun x => x.id == cid) = some c' := h'
      rw [find?_map_ite s.conversations cid cid' (applyTitleAndSummary t n)
        (fun _ => rfl)] at h'2
      cases hf : s.conversations.find? (fun x => x.id == cid) with
      | none => rw [hf] at h'2; exact Option.noConfusion h'2
      | some c0 =>
          rw [hf, Option.map_some'] at h'2
          have heq := (Option.some.inj h'2).symm
          have hc0 := h c0 hf
          by_cases hcc : (c0.id == cid') = true
          · rw [if_pos hcc] at heq; rw [heq]; rfl
          · rw [if_neg hcc] at heq; rw [heq]; exact hc0
  | deleteConv cid' =>
      simp only [applyOp] at h'
      by_cases hcc : cid' = cid
      · subst hcc
        rw [get_conversation_after_delete_self] at h'
        exact Option.noConfusion h'
      · rw [get_conversation_after_delete_other s cid cid'
          (fun hh => hcc hh.symm)] at h'
        exact h c' h'

theorem flag_true_preserved_fold (cid : String) (ops : List Op) :
    ∀ s, (∀ op ∈ ops, ∀ t un cm g n, op ≠ Op.createConv cid t un cm g n) →
      (∀ c, get_conversation s cid = some c → c.summary_generated = true) →
      ∀ c', get_conversation (ops.foldl applyOp s) cid = some c' →
        c'.summary_generated = true := by
  induction ops with
  | nil => intro s _ h c' h'; exact h c' h'
  | cons op rest ih =>
      intro s hops h c' h'
      rw [List.foldl_cons] at h'
      exact ih (applyOp s op)
        (fun o ho => hops o (List.mem_cons_of_mem _ ho))
        (flag_true_preserved_step s op cid
          (hops op (List.mem_cons_self _ _)) h) c' h'

/-- C8: `summary_generated` is monotonic: it is `false` on the row
`create_conversation` inserts; the only operation that can take it from
`false` to `true` for a conversation is `update_conversation_title_and_summary`
on that conversation; and across any sequence of Store operations (which,
since ids are freshly generated UUIDs, never re-create an existing
conversation id) a `true` flag never goes back to `false`. -/
theorem summary_generated_monotonic :
    (∀ (s s' : DBState) (cid t : String) (un cm : Option String)
        (g : Option (List String)) (n : Nat) (conv : Conversation),
        create_conversation s cid t un cm g n = (s', Except.ok conv) →
        conv.summary_generated = false)
    ∧ (∀ (s : DBState) (op : Op) (cid : String) (c c' : Conversation),
        get_conversation s cid = some c →
        get_conversation (applyOp s op) cid = some c' →
        c.summary_generated = false → c'.summary_generated = true →
        ∃ t n, op = Op.setTitleAndSummary cid t n)
    ∧ (∀ (s : DBState) (ops : List Op) (cid : String) (c c' : Conversation),
        (∀ op ∈ ops, ∀ t un cm g n, op ≠ Op.createConv cid t un cm g n) →
        get_conversation s cid = some c → c.summary_generated = true →
        get_conversation (ops.foldl applyOp s) cid = some c' →
        c'.summary_generated = true) := by
  refine ⟨?_, ?_, ?_⟩
  · intro s s' cid t un cm g n conv hok
    obtain ⟨-, -, hconv⟩ := create_conversation_ok hok
    rw [hconv]
    rfl
  · intro s op cid c c' h h' hfalse htrue
    exact flag_flip_only_by_title_commit s op cid c c' h h' hfalse htrue
  · intro s ops cid c c' hops hc hflag h'
    refine flag_true_preserved_fold cid ops s hops (fun c0 h0 => ?_) c' h'
    rw [Option.some.inj (h0.symm.trans hc)]
    exact hflag

/-- Witness for C8: a fresh conversation starts with the flag `false`; the
flip on a one-row database is indeed performed by the title-commit
operation; and the flag survives an unrelated delete. -/
theorem summary_generated_monotonic_witness :
    (newConversationRow "c1" "T" none none [] 0).summary_generated = false
    ∧ (∃ t n, Op.setTitleAndSummary "c1" "B" 2
        = Op.setTitleAndSummary "c1" t n)
    ∧ exConvRowTrue.summary_generated = true := by
  refine ⟨summary_generated_monotonic.1 emptyDB
      { conversations := [newConversationRow "c1" "T" none none [] 0],
        messages := [] }
      "c1" "T" none none none 0 (newConversationRow "c1" "T" none none [] 0)
      rfl,
    summary_generated_monotonic.2.1 exDB (Op.setTitleAndSummary "c1" "B" 2)
      "c1" exConvRow (applyTitleAndSummary "B" 2 exConvRow)
      (by decide) (by decide) (by decide) (by decide),
    summary_generated_monotonic.2.2 exDBTrue [Op.deleteConv "x"] "c1"
      exConvRowTrue exConvRowTrue ?_ (by decide) (by decide) (by decide)⟩
  intro op hop t un cm g n
  have hx := List.mem_singleton.mp hop
  subst hx
  intro heq
  exact Op.noConfusion heq

/-- Witness for the amended C4 at the concrete 61-character message. -/
theorem title_fallback_amended_witness :
    ([exLongMsg] : List Message).find? (fun x => x.role == "user")
        = some exLongMsg
    ∧ 60 < exLongMsg.content.length
    ∧ generate_title (ModelResult.respond (some [])) [exLongMsg]
        = ("Conversation summary unavailable", true) :=
  ⟨by decide, by decide,
   (title_fallback_amended [exLongMsg] exLongMsg (by decide)
     (by decide)).2.2⟩

end Journaling
